import Mathlib

/-!
Shallow embedding of the core decision logic of the healthcare-ai-agent
repository:

* `medical_rules.py` — `analyze_vitals`
* `agent/disease_matcher.py` — `DISEASE_KB`, `rank_diseases`
* `agent/symptom_extractor.py` — `SYMPTOM_MAP`, `extract_symptoms`
* `agent/followup_engine.py` — `estimate_risk_from_symptoms`, `get_followup_plan`
* `agent/doctor_engine.py` — `DISEASE_TO_SPECIALITY`, `suggest_specialities`

Strings are Lean `String`s; Python `int()` / `float()` parsing is modelled
over character lists (decimal forms, optional sign, surrounding whitespace);
Python `float` temperature values are modelled by `Rat` (all thresholds and
inputs of interest are small decimals, where float and exact rational
comparison agree); Python's stable `list.sort(key=..., reverse=True)` is
modelled by a stable descending insertion sort.
-/

namespace HealthAgent

/-! ## Modelling Python numeric-string parsing -/

/-- Drop surrounding whitespace, as Python `int()`/`float()` do. -/
def trimWs (l : List Char) : List Char :=
  ((l.dropWhile Char.isWhitespace).reverse.dropWhile Char.isWhitespace).reverse

/-- Digit-string to natural number, most significant digit first. -/
def digitsToNat (l : List Char) : Nat :=
  l.foldl (fun n c => 10 * n + (c.toNat - '0'.toNat)) 0

/-- A non-empty all-digit character list parsed as a `Nat`. -/
def parseNatDigits (l : List Char) : Option Nat :=
  if l ≠ [] ∧ l.all Char.isDigit then some (digitsToNat l) else none

/-- Model of Python `int(s)` on the decimal forms: optional surrounding
whitespace, optional sign, then decimal digits. -/
def parsePyInt (s : String) : Option Int :=
  match trimWs s.toList with
  | '+' :: rest => (parseNatDigits rest).map Int.ofNat
  | '-' :: rest => (parseNatDigits rest).map (fun n => -(n : Int))
  | rest => (parseNatDigits rest).map Int.ofNat

/-- Split a character list on a separator character, Python `str.split(sep)`
semantics: `splitChar '/' "".toList = [[]]`, empty fields kept. -/
def splitChar (c : Char) : List Char → List (List Char)
  | [] => [[]]
  | x :: xs =>
    match splitChar c xs, decide (x = c) with
    | r, true => [] :: r
    | [], false => [[x]]
    | y :: ys, false => (x :: y) :: ys

/-- Model of `systolic, diastolic = map(int, bp.split("/"))`: exactly two
`/`-separated fields, each parsed as a Python int; any failure (wrong arity
or unparsable field) is `none` (the `except` branch of the source). -/
def parseBP (bp : String) : Option (Int × Int) :=
  match splitChar '/' bp.toList with
  | [a, b] =>
    match parsePyInt (String.mk a), parsePyInt (String.mk b) with
    | some x, some y => some (x, y)
    | _, _ => none
  | _ => none

/-- Model of Python `float(s)` on plain decimal forms: optional surrounding
whitespace, optional sign, digits with at most one decimal point and at
least one digit overall (exponent and `inf`/`nan` forms are not modelled:
no claim depends on them). The value `ip.fp` is the exact rational
`(ip ++ fp) / 10 ^ |fp|`, built with `mkRat`. -/
def parsePyFloatMag (l : List Char) : Option Rat :=
  match splitChar '.' l with
  | [ip] => (parseNatDigits ip).map (fun n => mkRat (n : Int) 1)
  | [ip, fp] =>
    if (ip ≠ [] ∨ fp ≠ []) ∧ ip.all Char.isDigit ∧ fp.all Char.isDigit then
      some (mkRat (digitsToNat (ip ++ fp) : Int) (10 ^ fp.length))
    else none
  | _ => none

def parsePyFloat (s : String) : Option Rat :=
  match trimWs s.toList with
  | '+' :: rest => parsePyFloatMag rest
  | '-' :: rest => (parsePyFloatMag rest).map (fun q => mkRat (-q.num) q.den)
  | rest => parsePyFloatMag rest

/-! ## `medical_rules.analyze_vitals` -/

/-- The blood-pressure branch of `analyze_vitals`: risk increment and issue
string (the `except` branch yields the fallback point and message). -/
def bpAssess (bp : String) : Nat × String :=
  match parseBP bp with
  | some (systolic, diastolic) =>
    if systolic > 140 ∨ diastolic > 90 then (3, "High blood pressure detected")
    else if systolic < 90 ∨ diastolic < 60 then (2, "Low blood pressure detected")
    else (1, "Blood pressure normal")
  | none => (1, "Invalid BP format")

/-- The heart-rate branch of `analyze_vitals`. -/
def hrAssess (heart_rate : String) : Nat × String :=
  match parsePyInt heart_rate with
  | some hr =>
    if hr > 100 then (3, "High heart rate (tachycardia)")
    else if hr < 60 then (2, "Low heart rate (bradycardia)")
    else (1, "Normal heart rate")
  | none => (1, "Invalid heart rate value")

/-- The temperature branch of `analyze_vitals`. -/
def tempAssess (temp : String) : Nat × String :=
  match parsePyFloat temp with
  | some t =>
    if t > 38 then (3, "High fever detected")
    else if t > 37 then (2, "Mild fever")
    else (1, "Normal temperature")
  | none => (1, "Invalid temperature value")

/-- The final tier thresholding of `analyze_vitals`. -/
def riskTier (risk : Nat) : String :=
  if risk ≤ 4 then "Low" else if risk ≤ 7 then "Moderate" else "High"

/-- Model of `medical_rules.analyze_vitals(bp, heart_rate, temp)`: returns
`(tier, issues)`; `risk` accumulates the three branch increments and the
issues are appended in the fixed order BP, heart rate, temperature. -/
def analyze_vitals (bp heart_rate temp : String) : String × List String :=
  let b := bpAssess bp
  let h := hrAssess heart_rate
  let t := tempAssess temp
  (riskTier (b.1 + h.1 + t.1), [b.2, h.2, t.2])

/-! ## `agent/disease_matcher.py` -/

/-- The knowledge base `DISEASE_KB`: each disease mapped to its list of key
symptoms, in declaration order (Python dicts iterate in insertion order). -/
def DISEASE_KB : List (String × List String) :=
  [("Common Cold",
      ["cold", "sneezing", "running nose", "cough", "headache"]),
   ("Viral Fever",
      ["fever", "chills", "body pain", "headache", "fatigue"]),
   ("Dengue (suspected)",
      ["fever", "chills", "body pain", "vomiting", "rash"]),
   ("Hypertension (High BP)",
      ["high bp", "headache", "dizziness", "chest pain"]),
   ("Hypotension (Low BP)",
      ["low bp", "dizziness", "weakness", "fatigue"]),
   ("Acid Reflux / Gastritis",
      ["heartburn", "abdominal pain", "vomiting", "nausea"]),
   ("Asthma / Breathing Issue",
      ["breathlessness", "cough", "chest pain"]),
   ("Stomach Infection",
      ["vomiting", "diarrhea", "abdominal pain", "fever"]),
   ("Allergic Reaction",
      ["rash", "itching", "sneezing", "running nose"])]

/-- One entry of the list returned by `rank_diseases`
(`{"disease": ..., "score": ..., "coverage": ..., "matched_symptoms": ...}`). -/
structure RankedMatch where
  disease : String
  score : Nat
  coverage : Rat
  matched_symptoms : List String
  deriving DecidableEq, Repr

/-- Strict descending comparison on the Python sort key
`(score, coverage)` used by `results.sort(key=..., reverse=True)`. -/
def keyLt (a b : RankedMatch) : Prop :=
  a.score < b.score ∨ (a.score = b.score ∧ a.coverage < b.coverage)

instance (a b : RankedMatch) : Decidable (keyLt a b) := by
  unfold keyLt; infer_instance

/-- Insert into a descending-sorted list, after every strictly greater
element and before every other element (so a stable descending sort). -/
def insertDesc (x : RankedMatch) : List RankedMatch → List RankedMatch
  | [] => [x]
  | y :: ys => if keyLt x y then y :: insertDesc x ys else x :: y :: ys

/-- Model of Python's stable `list.sort(key=lambda x: (score, coverage),
reverse=True)`: a stable descending insertion sort on the same key. -/
def sortDesc : List RankedMatch → List RankedMatch
  | [] => []
  | x :: xs => insertDesc x (sortDesc xs)

/-- The `results` list built by `rank_diseases` before sorting: for each KB
entry, the overlap of the extracted-symptom set with the profile's symptom
set, kept iff `score >= min_score` (sets modelled by deduplicated lists;
`min_score` is a Python int). -/
def rankResults (extracted_symptoms : List String) (min_score : Int) :
    List RankedMatch :=
  let extracted_set := extracted_symptoms.dedup
  DISEASE_KB.filterMap (fun p =>
    let s_set := p.2.dedup
    let matched := extracted_set.filter (fun x => x ∈ s_set)
    let score := matched.length
    if (score : Int) ≥ min_score then
      some ⟨p.1, score, mkRat (score : Int) s_set.length, matched⟩
    else none)

/-- Model of `disease_matcher.rank_diseases(extracted_symptoms, min_score=1)`. -/
def rank_diseases (extracted_symptoms : List String) (min_score : Int := 1) :
    List RankedMatch :=
  sortDesc (rankResults extracted_symptoms min_score)

/-- The "sorted by score descending, then coverage descending" order between two
adjacent entries: `a` may precede `b` iff `b`'s key is no larger. -/
def keyGe (a b : RankedMatch) : Prop :=
  b.score < a.score ∨ (b.score = a.score ∧ b.coverage ≤ a.coverage)

/-- Exact tie on the sort key `(score, coverage)`. -/
def keyEq (a b : RankedMatch) : Prop :=
  a.score = b.score ∧ a.coverage = b.coverage

/-- Position of a disease name in the knowledge base's declaration order. -/
def kbIndex (disease : String) : Nat :=
  (DISEASE_KB.map Prod.fst).indexOf disease

/-! ## `agent/symptom_extractor.py` -/

/-- The table `SYMPTOM_MAP`: canonical symptom token to its synonym phrases, in
declaration order. -/
def SYMPTOM_MAP : List (String × List String) :=
  [("fever", ["fever", "high temperature", "temperature high"]),
   ("cough", ["cough", "coughing"]),
   ("cold", ["cold", "common cold"]),
   ("headache", ["headache", "head pain"]),
   ("fatigue", ["fatigue", "tired", "tiredness", "exhausted"]),
   ("vomiting", ["vomit", "vomiting", "throwing up"]),
   ("diarrhea", ["diarrhea", "loose motion", "loose motions"]),
   ("body pain", ["body pain", "body ache"]),
   ("joint pain", ["joint pain", "joint ache"]),
   ("dizziness", ["dizzy", "dizziness", "lightheaded"]),
   ("rash", ["rash", "rashes"]),
   ("itching", ["itching", "itchy"]),
   ("sneezing", ["sneeze", "sneezing"]),
   ("running nose", ["runny nose", "running nose"]),
   ("abdominal pain", ["abdominal pain", "stomach pain", "belly pain"]),
   ("constipation", ["constipation"]),
   ("sweating", ["sweating", "excess sweat"]),
   ("weakness", ["weakness", "weak"]),
   ("heartburn", ["heartburn", "acidity", "acid reflux"]),
   ("chills", ["chills", "shivering"]),
   ("loss of appetite", ["loss of appetite", "not eating", "no appetite"]),
   ("high bp", ["high bp", "bp high", "high blood pressure", "hypertension"]),
   ("low bp", ["low bp", "bp low", "low blood pressure", "hypotension"]),
   ("chest pain", ["chest pain", "pain in chest", "chest discomfort"]),
   ("breathlessness",
      ["breathlessness", "shortness of breath", "difficulty breathing"])]

/-- Model of `text.lower()`, character-wise (all synonym phrases and the
inputs of interest are ASCII, where Python and `Char.toLower` agree). -/
def lowerChars (s : String) : List Char := s.toList.map Char.toLower

/-- Python `word in text` on strings: contiguous-substring containment of
the word's characters in the (already lowered) text characters. -/
def substrOf (word : String) (text : List Char) : Prop := word.toList <:+: text

instance (word : String) (text : List Char) : Decidable (substrOf word text) :=
  List.decidableInfix word.toList text

/-- Model of `symptom_extractor.extract_symptoms(user_text)`: lower-case the input,
append a token once per matching synonym, then `list(set(detected))`
(modelled by `dedup`; Python's set iteration order is unspecified, and no
claim depends on the output order). -/
def extract_symptoms (user_text : String) : List String :=
  let text := lowerChars user_text
  let detected := SYMPTOM_MAP.flatMap (fun p =>
    (p.2.filter (fun word => decide (substrOf word text))).map (fun _ => p.1))
  detected.dedup

/-! ## `agent/followup_engine.py` -/

/-- Model of `followup_engine.estimate_risk_from_symptoms(extracted)`. -/
def estimate_risk_from_symptoms (extracted : List String) : String :=
  let high_flags := ["chest pain", "breathlessness", "high bp"]
  let moderate_flags := ["fever", "vomiting", "diarrhea", "low bp", "dizziness"]
  if high_flags.any (fun s => extracted.contains s) then "High"
  else if moderate_flags.any (fun s => extracted.contains s) then "Moderate"
  else "Low"

/-- Model of `followup_engine.get_followup_plan(symptom_risk)`: `datetime.now()` is
modelled by the day index `today`, `timedelta(days=n)` by `+ n`; the
function returns the follow-up day and the advisory message (the source
formats the date with `strftime("%Y-%m-%d")`, i.e. at day granularity). -/
def get_followup_plan (today : Nat) (symptom_risk : String) : Nat × String :=
  if symptom_risk = "High" then
    (today + 1, "Follow-up strongly recommended within 24 hours.")
  else if symptom_risk = "Moderate" then
    (today + 3, "Follow-up suggested in 2–3 days if symptoms persist.")
  else
    (today + 7, "Routine follow-up after a week is sufficient if no worsening.")

/-! ## `agent/doctor_engine.py` -/

/-- The fixed disease-to-specialities table `DISEASE_TO_SPECIALITY`. -/
def DISEASE_TO_SPECIALITY : List (String × List String) :=
  [("Hypertension (High BP)", ["Cardiologist", "General Physician"]),
   ("Hypotension (Low BP)", ["General Physician"]),
   ("Chest Pain", ["Cardiologist"]),
   ("Asthma", ["Pulmonologist"]),
   ("Breathing Issue", ["Pulmonologist", "General Physician"]),
   ("Viral Fever", ["General Physician"]),
   ("Dengue", ["General Physician"]),
   ("Malaria", ["General Physician"]),
   ("COVID", ["Pulmonologist", "General Physician"]),
   ("Stomach Infection", ["Gastroenterologist"]),
   ("Acid Reflux / Gastritis", ["Gastroenterologist"]),
   ("Food Poisoning", ["Gastroenterologist"]),
   ("Allergic Reaction", ["Dermatologist"]),
   ("Skin Rash", ["Dermatologist"]),
   ("Migraine", ["Neurologist"]),
   ("Severe Headache", ["Neurologist"]),
   ("Throat Infection", ["ENT Specialist"]),
   ("Ear Infection", ["ENT Specialist"]),
   ("Joint Pain", ["Orthopedic Surgeon"]),
   ("Back Pain", ["Orthopedic Surgeon"]),
   ("Diabetes", ["Endocrinologist"]),
   ("Thyroid Disorder", ["Endocrinologist"]),
   ("UTI", ["Urologist"]),
   ("Kidney Infection", ["Nephrologist"]),
   ("Eye Redness", ["Ophthalmologist"]),
   ("Blurry Vision", ["Ophthalmologist"]),
   ("Anxiety", ["Psychiatrist"]),
   ("Depression", ["Psychiatrist"]),
   ("Menstrual Pain", ["Gynecologist"]),
   ("White Discharge", ["Gynecologist"]),
   ("Child Fever", ["Pediatrician"]),
   ("Pediatric Cold", ["Pediatrician"]),
   ("Arthritis", ["Rheumatologist"]),
   ("Autoimmune Reaction", ["Immunologist"]),
   ("Anemia", ["Hematologist"]),
   ("Low Hemoglobin", ["Hematologist"]),
   ("Suspected Tumor", ["Oncologist"])]

/-- Model of `doctor_engine.suggest_specialities(diseases_ranked)`: `(None, ["General
Physician"])` on an empty list, otherwise the top entry's disease name and
`DISEASE_TO_SPECIALITY.get(top, ["General Physician"])`. -/
def suggest_specialities (diseases_ranked : List RankedMatch) :
    Option String × List String :=
  match diseases_ranked with
  | [] => (none, ["General Physician"])
  | top :: _ =>
    (some top.disease,
      (DISEASE_TO_SPECIALITY.lookup top.disease).getD ["General Physician"])

/-! ## Spec-side scoring policy (for comparison with `analyze_vitals`)

`claim_hr_points` follows the claim's words (HR > 100 **or** < 60 → high
points, else low); `policy_hr_points` follows the source (> 100 → high,
< 60 → moderate, else low). The other two vitals and the tier cutoffs are
stated identically by claim and source. -/

/-- Spec policy: BP > 140/90 → high-risk points (3), < 90/60 → moderate
points (2), else low points (1). -/
def policy_bp_points (systolic diastolic : Int) : Nat :=
  if systolic > 140 ∨ diastolic > 90 then 3
  else if systolic < 90 ∨ diastolic < 60 then 2
  else 1

/-- The claim's heart-rate policy: > 100 or < 60 → high points, else low. -/
def claim_hr_points (hr : Int) : Nat :=
  if hr > 100 ∨ hr < 60 then 3 else 1

/-- The source's heart-rate policy: > 100 → high points (3), < 60 →
moderate points (2), else low points (1). -/
def policy_hr_points (hr : Int) : Nat :=
  if hr > 100 then 3 else if hr < 60 then 2 else 1

/-- Spec policy: temperature > 38 → high points, > 37 → moderate, else low. -/
def policy_temp_points (t : Rat) : Nat :=
  if t > 38 then 3 else if t > 37 then 2 else 1

/-- Spec policy: summed points map to a tier via the fixed cutoffs
(≤ 4 Low, ≤ 7 Moderate, else High). -/
def policy_tier (points : Nat) : String :=
  if points ≤ 4 then "Low" else if points ≤ 7 then "Moderate" else "High"

/-- The tier assigned by the claim's policy (C1 as stated) to a parsed
vitals reading. -/
def claim_vitals_tier (systolic diastolic hr : Int) (t : Rat) : String :=
  policy_tier (policy_bp_points systolic diastolic + claim_hr_points hr +
    policy_temp_points t)

/-- The tier assigned by the source's policy to a parsed vitals reading. -/
def source_vitals_tier (systolic diastolic hr : Int) (t : Rat) : String :=
  policy_tier (policy_bp_points systolic diastolic + policy_hr_points hr +
    policy_temp_points t)

/-! # Theorems -/

/-! ## C1 — vitals scoring policy -/

/-- C1, counterexample: the claim's policy gives bradycardia (HR < 60) high
points, the code gives it moderate points; at the well-formed input
`("150/95", "50", "37.5")` the claim's policy yields tier High while
`analyze_vitals` yields tier Moderate. -/
theorem analyze_vitals_claimC1_counterexample :
    parseBP "150/95" = some (150, 95) ∧
    parsePyInt "50" = some 50 ∧
    parsePyFloat "37.5" = some (mkRat 375 10) ∧
    claim_vitals_tier 150 95 50 (mkRat 375 10) = "High" ∧
    (analyze_vitals "150/95" "50" "37.5").1 = "Moderate" := by
  decide

/-- C1, amended: for every well-formed vitals input, `analyze_vitals`
assigns points per the fixed policy — BP > 140/90 high (3), < 90/60
moderate (2), else low (1); HR > 100 high (3), **< 60 moderate (2)**, else
low (1); temperature > 38 high, > 37 moderate, else low — and maps the sum
to the tier by the fixed cutoffs (≤ 4 Low, ≤ 7 Moderate, else High). -/
theorem analyze_vitals_matches_policy (bp hr t : String) (s d h : Int)
    (tv : Rat) (hbp : parseBP bp = some (s, d))
    (hhr : parsePyInt hr = some h) (ht : parsePyFloat t = some tv) :
    (analyze_vitals bp hr t).1 = source_vitals_tier s d h tv ∧
    (bpAssess bp).1 = policy_bp_points s d ∧
    (hrAssess hr).1 = policy_hr_points h ∧
    (tempAssess t).1 = policy_temp_points tv := by
  have h1 : (bpAssess bp).1 = policy_bp_points s d := by
    simp only [bpAssess, policy_bp_points, hbp]
    split_ifs <;> rfl
  have h2 : (hrAssess hr).1 = policy_hr_points h := by
    simp only [hrAssess, policy_hr_points, hhr]
    split_ifs <;> rfl
  have h3 : (tempAssess t).1 = policy_temp_points tv := by
    simp only [tempAssess, policy_temp_points, ht]
    split_ifs <;> rfl
  refine ⟨?_, h1, h2, h3⟩
  show riskTier ((bpAssess bp).1 + (hrAssess hr).1 + (tempAssess t).1) = _
  rw [h1, h2, h3]; rfl

/-- C1 witness: the amended theorem applied at `("150/95", "50", "37.5")`. -/
theorem analyze_vitals_matches_policy_witness :
    (analyze_vitals "150/95" "50" "37.5").1 =
      source_vitals_tier 150 95 50 (mkRat 375 10) ∧
    source_vitals_tier 150 95 50 (mkRat 375 10) = "Moderate" :=
  ⟨(analyze_vitals_matches_policy "150/95" "50" "37.5" 150 95 50
      (mkRat 375 10) (by decide) (by decide) (by decide)).1, by decide⟩

/-! ## C2 — vitals scoring never fails -/

/-- C2: for every input triple of strings, `analyze_vitals` returns one of
the three tiers; each unparsable field contributes exactly its fallback
point 1 and its explanatory issue string; the issue list is exactly the
three per-field issue strings in order; and on `("bad", "70", "36.5")` the
result is tier Low with the "Invalid BP format" issue. -/
theorem analyze_vitals_total_graceful (bp hr t : String) :
    ((analyze_vitals bp hr t).1 = "Low" ∨ (analyze_vitals bp hr t).1 = "Moderate" ∨
      (analyze_vitals bp hr t).1 = "High") ∧
    (analyze_vitals bp hr t).2 = [(bpAssess bp).2, (hrAssess hr).2, (tempAssess t).2] ∧
    (parseBP bp = none → bpAssess bp = (1, "Invalid BP format")) ∧
    (parsePyInt hr = none → hrAssess hr = (1, "Invalid heart rate value")) ∧
    (parsePyFloat t = none → tempAssess t = (1, "Invalid temperature value")) ∧
    analyze_vitals "bad" "70" "36.5" =
      ("Low", ["Invalid BP format", "Normal heart rate", "Normal temperature"]) := by
  refine ⟨?_, rfl, fun h => ?_, fun h => ?_, fun h => ?_, by decide⟩
  · show riskTier _ = "Low" ∨ riskTier _ = "Moderate" ∨ riskTier _ = "High"
    unfold riskTier
    split_ifs <;> simp
  · simp [bpAssess, h]
  · simp [hrAssess, h]
  · simp [tempAssess, h]

/-- C2 witness: the theorem applied at `("bad", "70", "36.5")`, with the
unparsable-BP hypothesis discharged there. -/
theorem analyze_vitals_total_graceful_witness :
    bpAssess "bad" = (1, "Invalid BP format") ∧
    analyze_vitals "bad" "70" "36.5" =
      ("Low", ["Invalid BP format", "Normal heart rate", "Normal temperature"]) :=
  ⟨(analyze_vitals_total_graceful "bad" "70" "36.5").2.2.1 (by decide),
   (analyze_vitals_total_graceful "bad" "70" "36.5").2.2.2.2.2⟩

/-! ## C6 — specialist selection -/

/-- C6: `suggest_specialities []` is `(none, ["General Physician"])`; on a
non-empty list it returns the first entry's disease name with that name's
entry in the fixed table (or the General-Physician fallback when absent),
never consulting entries beyond the first (the tail is arbitrary and does
not occur in the result). -/
theorem suggest_specialities_policy :
    suggest_specialities [] = (none, ["General Physician"]) ∧
    ∀ (top : RankedMatch) (rest : List RankedMatch),
      (∀ specs, DISEASE_TO_SPECIALITY.lookup top.disease = some specs →
        suggest_specialities (top :: rest) = (some top.disease, specs)) ∧
      (DISEASE_TO_SPECIALITY.lookup top.disease = none →
        suggest_specialities (top :: rest) =
          (some top.disease, ["General Physician"])) := by
  refine ⟨rfl, fun top rest => ⟨fun specs h => ?_, fun h => ?_⟩⟩ <;>
    simp [suggest_specialities, h]

/-- C6 witness: the theorem applied to a singleton ranked list whose top
disease is in the table, and the empty-list clause. -/
theorem suggest_specialities_policy_witness :
    suggest_specialities [] = (none, ["General Physician"]) ∧
    suggest_specialities [⟨"Stomach Infection", 2, mkRat 2 4, []⟩] =
      (some "Stomach Infection", ["Gastroenterologist"]) :=
  ⟨suggest_specialities_policy.1,
   (suggest_specialities_policy.2 ⟨"Stomach Infection", 2, mkRat 2 4, []⟩ []).1
     ["Gastroenterologist"] (by decide)⟩

/-! ## C7 — follow-up planning -/

/-- C7: `get_followup_plan` returns day now+1 with the urgent message on
tier High, now+3 with the moderate message on tier Moderate, and now+7
with the routine message on any other tier. -/
theorem get_followup_plan_policy (today : Nat) (risk : String) :
    (risk = "High" → get_followup_plan today risk =
      (today + 1, "Follow-up strongly recommended within 24 hours.")) ∧
    (risk = "Moderate" → get_followup_plan today risk =
      (today + 3, "Follow-up suggested in 2–3 days if symptoms persist.")) ∧
    (risk ≠ "High" → risk ≠ "Moderate" → get_followup_plan today risk =
      (today + 7, "Routine follow-up after a week is sufficient if no worsening.")) := by
  refine ⟨fun h => ?_, fun h => ?_, fun h1 h2 => ?_⟩
  · subst h; rfl
  · subst h; rfl
  · unfold get_followup_plan
    rw [if_neg h1, if_neg h2]

/-- C7 witness: the theorem applied at day 0 for tiers High and Low. -/
theorem get_followup_plan_policy_witness :
    get_followup_plan 0 "High" =
      (1, "Follow-up strongly recommended within 24 hours.") ∧
    get_followup_plan 0 "Low" =
      (7, "Routine follow-up after a week is sufficient if no worsening.") :=
  ⟨(get_followup_plan_policy 0 "High").1 rfl,
   (get_followup_plan_policy 0 "Low").2.2 (by decide) (by decide)⟩

/-! ## C8 — symptom-only risk estimate -/

/-- C8: `estimate_risk_from_symptoms` returns High exactly when the list
contains a high flag ("chest pain", "breathlessness", "high bp");
otherwise Moderate exactly when it contains a moderate flag ("fever",
"vomiting", "diarrhea", "low bp", "dizziness"); otherwise Low. (It takes
only the extracted symptoms, no vitals tier.) -/
theorem estimate_risk_from_symptoms_flags (l : List String) :
    (estimate_risk_from_symptoms l = "High" ↔
      "chest pain" ∈ l ∨ "breathlessness" ∈ l ∨ "high bp" ∈ l) ∧
    (("chest pain" ∉ l ∧ "breathlessness" ∉ l ∧ "high bp" ∉ l) →
      (estimate_risk_from_symptoms l = "Moderate" ↔
        "fever" ∈ l ∨ "vomiting" ∈ l ∨ "diarrhea" ∈ l ∨ "low bp" ∈ l ∨
          "dizziness" ∈ l)) ∧
    (("chest pain" ∉ l ∧ "breathlessness" ∉ l ∧ "high bp" ∉ l) →
      ("fever" ∉ l ∧ "vomiting" ∉ l ∧ "diarrhea" ∉ l ∧ "low bp" ∉ l ∧
        "dizziness" ∉ l) →
      estimate_risk_from_symptoms l = "Low") := by
  have hH : ((["chest pain", "breathlessness", "high bp"] : List String).any
        fun s => l.contains s) = true ↔
      ("chest pain" ∈ l ∨ "breathlessness" ∈ l ∨ "high bp" ∈ l) := by
    simp [List.any_cons]
  have hM : ((["fever", "vomiting", "diarrhea", "low bp", "dizziness"] :
        List String).any fun s => l.contains s) = true ↔
      ("fever" ∈ l ∨ "vomiting" ∈ l ∨ "diarrhea" ∈ l ∨ "low bp" ∈ l ∨
        "dizziness" ∈ l) := by
    simp [List.any_cons]
  have key : estimate_risk_from_symptoms l =
      (if "chest pain" ∈ l ∨ "breathlessness" ∈ l ∨ "high bp" ∈ l then "High"
       else if "fever" ∈ l ∨ "vomiting" ∈ l ∨ "diarrhea" ∈ l ∨ "low bp" ∈ l ∨
          "dizziness" ∈ l then "Moderate"
       else "Low") := by
    simp only [estimate_risk_from_symptoms]
    exact if_congr hH rfl (if_congr hM rfl rfl)
  rw [key]
  refine ⟨?_, fun hn => ?_, fun hn hn2 => ?_⟩
  · by_cases h1 : "chest pain" ∈ l ∨ "breathlessness" ∈ l ∨ "high bp" ∈ l
    · rw [if_pos h1]; exact iff_of_true rfl h1
    · rw [if_neg h1]
      split_ifs with h2
      · exact iff_of_false (by decide) h1
      · exact iff_of_false (by decide) h1
  · have h1 : ¬("chest pain" ∈ l ∨ "breathlessness" ∈ l ∨ "high bp" ∈ l) := by
      tauto
    rw [if_neg h1]
    by_cases h2 : "fever" ∈ l ∨ "vomiting" ∈ l ∨ "diarrhea" ∈ l ∨ "low bp" ∈ l ∨
        "dizziness" ∈ l
    · rw [if_pos h2]; exact iff_of_true rfl h2
    · rw [if_neg h2]; exact iff_of_false (by decide) h2
  · have h1 : ¬("chest pain" ∈ l ∨ "breathlessness" ∈ l ∨ "high bp" ∈ l) := by
      tauto
    have h2 : ¬("fever" ∈ l ∨ "vomiting" ∈ l ∨ "diarrhea" ∈ l ∨ "low bp" ∈ l ∨
        "dizziness" ∈ l) := by tauto
    rw [if_neg h1, if_neg h2]

/-- C8 witness: the theorem applied at `["fever"]`, whose risk estimate is
Moderate. -/
theorem estimate_risk_from_symptoms_flags_witness :
    estimate_risk_from_symptoms ["fever"] = "Moderate" :=
  ((estimate_risk_from_symptoms_flags ["fever"]).2.1
    ⟨by decide, by decide, by decide⟩).mpr (by decide)

/-! ## C10 — specialities always non-empty -/

/-- Looking a key up in a table whose values are all non-empty, with a
non-empty default, never yields the empty list. -/
theorem lookup_getD_ne_nil (tbl : List (String × List String))
    (hT : ∀ p ∈ tbl, p.2 ≠ []) (s : String) (d : List String) (hd : d ≠ []) :
    (tbl.lookup s).getD d ≠ [] := by
  induction tbl with
  | nil => simpa using hd
  | cons p rest ih =>
    rw [List.lookup_cons]
    split
    · exact hT p (List.mem_cons_self p rest)
    · exact ih (fun q hq => hT q (List.mem_cons_of_mem p hq))

/-- C10: for every ranked list, the speciality list returned by
`suggest_specialities` is non-empty — it has positive length (every table
value is non-empty and both fallback paths return `["General Physician"]`). -/
theorem suggest_specialities_nonempty (diseases_ranked : List RankedMatch) :
    0 < (suggest_specialities diseases_ranked).2.length := by
  rw [List.length_pos]
  cases diseases_ranked with
  | nil => simp [suggest_specialities]
  | cons top rest =>
    show (DISEASE_TO_SPECIALITY.lookup top.disease).getD ["General Physician"] ≠ []
    exact lookup_getD_ne_nil DISEASE_TO_SPECIALITY (by decide) top.disease
      ["General Physician"] (by decide)

/-! ## C3 — ranking order and stability -/

theorem keyGe_of_keyLt {a b : RankedMatch} (h : keyLt a b) : keyGe b a :=
  h.imp id (fun hp => ⟨hp.1, le_of_lt hp.2⟩)

theorem keyGe_of_not_keyLt {a b : RankedMatch} (h : ¬ keyLt a b) : keyGe a b := by
  rcases lt_trichotomy a.score b.score with h1 | h1 | h1
  · exact absurd (Or.inl h1) h
  · exact Or.inr ⟨h1.symm, le_of_not_lt (fun hc => h (Or.inr ⟨h1, hc⟩))⟩
  · exact Or.inl h1

theorem keyGe_trans {a b c : RankedMatch} (hab : keyGe a b) (hbc : keyGe b c) :
    keyGe a c := by
  rcases hab with h1 | ⟨h1, h2⟩ <;> rcases hbc with h3 | ⟨h3, h4⟩
  · exact Or.inl (h3.trans h1)
  · exact Or.inl (h3 ▸ h1)
  · exact Or.inl (h1 ▸ h3)
  · exact Or.inr ⟨h3.trans h1, h4.trans h2⟩

theorem not_keyLt_of_keyEq {a b : RankedMatch} (h : keyEq a b) : ¬ keyLt a b := by
  rintro (hc | ⟨_, hc⟩)
  · exact absurd h.1 (Nat.ne_of_lt hc)
  · exact absurd h.2 (ne_of_lt hc)

theorem mem_insertDesc {x z : RankedMatch} {l : List RankedMatch} :
    z ∈ insertDesc x l ↔ z = x ∨ z ∈ l := by
  induction l with
  | nil => simp [insertDesc]
  | cons y ys ih =>
    by_cases h : keyLt x y
    · simp only [insertDesc, if_pos h, List.mem_cons, ih]
      tauto
    · simp only [insertDesc, if_neg h, List.mem_cons]

theorem mem_sortDesc {z : RankedMatch} {l : List RankedMatch} :
    z ∈ sortDesc l ↔ z ∈ l := by
  induction l with
  | nil => simp [sortDesc]
  | cons y ys ih => simp [sortDesc, mem_insertDesc, ih]

theorem pairwise_keyGe_insertDesc {x : RankedMatch} {l : List RankedMatch}
    (hl : l.Pairwise keyGe) : (insertDesc x l).Pairwise keyGe := by
  induction l with
  | nil => simp [insertDesc]
  | cons y ys ih =>
    obtain ⟨hy, hys⟩ := List.pairwise_cons.mp hl
    by_cases h : keyLt x y
    · rw [insertDesc, if_pos h]
      refine List.pairwise_cons.mpr ⟨?_, ih hys⟩
      intro z hz
      rcases mem_insertDesc.mp hz with rfl | hz'
      · exact keyGe_of_keyLt h
      · exact hy z hz'
    · rw [insertDesc, if_neg h]
      refine List.pairwise_cons.mpr ⟨?_, hl⟩
      intro z hz
      rcases List.mem_cons.mp hz with rfl | hz'
      · exact keyGe_of_not_keyLt h
      · exact keyGe_trans (keyGe_of_not_keyLt h) (hy z hz')

theorem pairwise_keyGe_sortDesc (l : List RankedMatch) :
    (sortDesc l).Pairwise keyGe := by
  induction l with
  | nil => simp [sortDesc]
  | cons x xs ih => exact pairwise_keyGe_insertDesc ih

/-- Stable insertion preserves "on key ties, `R` holds left-to-right",
provided the inserted element is `R`-below every element it ties with. -/
theorem pairwise_tie_insertDesc {R : RankedMatch → RankedMatch → Prop}
    {x : RankedMatch} {l : List RankedMatch}
    (hl : l.Pairwise (fun a b => keyEq a b → R a b))
    (hx : ∀ y ∈ l, keyEq x y → R x y) :
    (insertDesc x l).Pairwise (fun a b => keyEq a b → R a b) := by
  induction l with
  | nil => simp [insertDesc]
  | cons y ys ih =>
    obtain ⟨hy, hys⟩ := List.pairwise_cons.mp hl
    by_cases h : keyLt x y
    · rw [insertDesc, if_pos h]
      refine List.pairwise_cons.mpr
        ⟨?_, ih hys (fun z hz => hx z (List.mem_cons_of_mem y hz))⟩
      intro z hz hk
      rcases mem_insertDesc.mp hz with rfl | hz'
      · exact absurd h (not_keyLt_of_keyEq ⟨hk.1.symm, hk.2.symm⟩)
      · exact hy z hz' hk
    · rw [insertDesc, if_neg h]
      refine List.pairwise_cons.mpr ⟨?_, hl⟩
      intro z hz hk
      rcases List.mem_cons.mp hz with rfl | hz'
      · exact hx z (List.mem_cons_self z ys) hk
      · exact hx z (List.mem_cons_of_mem y hz') hk

/-- The stable descending sort preserves any relation that held pairwise in
the input, restricted to exact key ties. -/
theorem pairwise_tie_sortDesc {R : RankedMatch → RankedMatch → Prop}
    {l : List RankedMatch} (hl : l.Pairwise R) :
    (sortDesc l).Pairwise (fun a b => keyEq a b → R a b) := by
  induction l with
  | nil => simp [sortDesc]
  | cons x xs ih =>
    obtain ⟨hx, hxs⟩ := List.pairwise_cons.mp hl
    exact pairwise_tie_insertDesc (ih hxs)
      (fun y hy _ => hx y (mem_sortDesc.mp hy))

/-- The unsorted `results` list is built in knowledge-base declaration
order, so its entries' `kbIndex` values strictly increase. -/
theorem rankResults_pairwise_kbIndex (extracted : List String) (min_score : Int) :
    (rankResults extracted min_score).Pairwise
      (fun a b => kbIndex a.disease < kbIndex b.disease) := by
  have hkb : DISEASE_KB.Pairwise (fun p q => kbIndex p.1 < kbIndex q.1) := by
    decide
  simp only [rankResults]
  refine List.pairwise_filterMap.mpr (hkb.imp ?_)
  intro p q hpq r hr r' hr'
  have hd : r.disease = p.1 := by
    split at hr
    · rw [Option.mem_some_iff] at hr; rw [← hr]
    · simp at hr
  have hd' : r'.disease = q.1 := by
    split at hr'
    · rw [Option.mem_some_iff] at hr'; rw [← hr']
    · simp at hr'
  rw [hd, hd']
  exact hpq

/-- C3: for every symptom list and every `min_score`, the output of
`rank_diseases` is sorted by score descending then coverage descending,
and entries with an exact key tie appear in knowledge-base declaration
order (stable tie-breaking). -/
theorem rank_diseases_sorted_stable (extracted : List String) (min_score : Int) :
    (rank_diseases extracted min_score).Pairwise keyGe ∧
    (rank_diseases extracted min_score).Pairwise
      (fun a b => keyEq a b → kbIndex a.disease < kbIndex b.disease) :=
  ⟨pairwise_keyGe_sortDesc _,
   pairwise_tie_sortDesc (rankResults_pairwise_kbIndex extracted min_score)⟩

/-! ## C9 — coverage bounds -/

/-- C9: for every symptom list and every `min_score ≥ 1`, the coverage of
every entry returned by `rank_diseases` is strictly positive and at
most 1. -/
theorem rank_diseases_coverage_bounds (extracted : List String)
    (min_score : Int) (hmin : 1 ≤ min_score) (r : RankedMatch)
    (hr : r ∈ rank_diseases extracted min_score) :
    0 < r.coverage ∧ r.coverage ≤ 1 := by
  have hr' : r ∈ rankResults extracted min_score := mem_sortDesc.mp hr
  simp only [rankResults, List.mem_filterMap] at hr'
  obtain ⟨p, hp, hf⟩ := hr'
  split_ifs at hf with hge
  · injection hf with hf
    subst hf
    simp only
    have hscore : 1 ≤ (extracted.dedup.filter (fun x => x ∈ p.2.dedup)).length := by
      exact_mod_cast le_trans hmin hge
    have hsub : (extracted.dedup.filter (fun x => x ∈ p.2.dedup)) ⊆ p.2.dedup := by
      intro x hx
      exact of_decide_eq_true (List.mem_filter.mp hx).2
    have hlen : (extracted.dedup.filter (fun x => x ∈ p.2.dedup)).length ≤
        p.2.dedup.length :=
      (List.subperm_of_subset ((List.nodup_dedup extracted).filter _) hsub).length_le
    have hden : 0 < p.2.dedup.length := lt_of_lt_of_le hscore hlen
    rw [Rat.mkRat_eq_div]
    constructor
    · apply div_pos
      · exact_mod_cast hscore
      · exact_mod_cast hden
    · rw [div_le_one (by exact_mod_cast hden)]
      exact_mod_cast hlen

/-- C9 witness: the theorem applied at `["fever"]`, `min_score = 1`, on the
top-ranked entry (Stomach Infection, coverage 1/4). -/
theorem rank_diseases_coverage_bounds_witness :
    0 < (mkRat 1 4 : Rat) ∧ (mkRat 1 4 : Rat) ≤ 1 := by
  have h := rank_diseases_coverage_bounds ["fever"] 1 (by decide)
    ⟨"Stomach Infection", 1, mkRat 1 4, ["fever"]⟩ (by decide)
  exact h

/-! ## C4 — round-trip on a full profile -/

/-- C4: for every knowledge-base profile, ranking exactly that profile's
symptom list with `min_score = 1` yields a result containing that disease
with coverage 1, whose score is maximal among all returned entries. -/
theorem rank_diseases_roundtrip :
    ∀ p ∈ DISEASE_KB, ∃ r ∈ rank_diseases p.2 1,
      r.disease = p.1 ∧ r.coverage = 1 ∧
      ∀ r' ∈ rank_diseases p.2 1, r'.score ≤ r.score := by
  decide

/-- C4 witness: the theorem applied to the Common Cold profile. -/
theorem rank_diseases_roundtrip_witness :
    ∃ r ∈ rank_diseases ["cold", "sneezing", "running nose", "cough",
        "headache"] 1,
      r.disease = "Common Cold" ∧ r.coverage = 1 ∧
      ∀ r' ∈ rank_diseases ["cold", "sneezing", "running nose", "cough",
          "headache"] 1, r'.score ≤ r.score :=
  rank_diseases_roundtrip
    ("Common Cold", ["cold", "sneezing", "running nose", "cough", "headache"])
    (by decide)

/-! ## C5 — symptom extraction -/

/-- C5: a token is returned by `extract_symptoms` iff one of its synonym
phrases in the synonym map occurs as a substring of the lower-cased input;
every token occurs at most once in the output (so exactly once when some
synonym matches); and a text matching no synonym yields `[]`. -/
theorem extract_symptoms_spec (user_text tok : String) :
    (tok ∈ extract_symptoms user_text ↔
      ∃ p ∈ SYMPTOM_MAP, p.1 = tok ∧
        ∃ w ∈ p.2, substrOf w (lowerChars user_text)) ∧
    (extract_symptoms user_text).count tok ≤ 1 ∧
    ((∀ p ∈ SYMPTOM_MAP, ∀ w ∈ p.2, ¬ substrOf w (lowerChars user_text)) →
      extract_symptoms user_text = []) := by
  refine ⟨?_, ?_, ?_⟩
  · simp only [extract_symptoms, List.mem_dedup, List.mem_flatMap,
      List.mem_map, List.mem_filter, decide_eq_true_eq]
    constructor
    · rintro ⟨p, hp, w, ⟨hw, hsub⟩, heq⟩
      exact ⟨p, hp, heq, w, hw, hsub⟩
    · rintro ⟨p, hp, heq, w, hw, hsub⟩
      exact ⟨p, hp, w, ⟨hw, hsub⟩, heq⟩
  · exact List.nodup_iff_count_le_one.mp (List.nodup_dedup _) tok
  · intro hnone
    simp only [extract_symptoms, List.dedup_eq_nil, List.flatMap_eq_nil_iff,
      List.map_eq_nil_iff, List.filter_eq_nil_iff, decide_eq_true_eq]
    exact hnone

/-- C5 witness: the theorem applied on a text containing the "high
temperature" synonym of "fever", and on a text with no synonym. -/
theorem extract_symptoms_spec_witness :
    "fever" ∈ extract_symptoms "Patient reports High Temperature today" ∧
    extract_symptoms "hello world" = [] :=
  ⟨(extract_symptoms_spec "Patient reports High Temperature today"
      "fever").1.mpr (by decide),
   (extract_symptoms_spec "hello world" "fever").2.2 (by decide)⟩

end HealthAgent
